import Mathlib

/-!
Shallow embedding of the OpenScreen CLI video post-processing core
(`cli/src/types.ts`, `cli/src/zoom.ts`, `cli/src/crop.ts`,
`cli/src/annotations.ts`, and the background/pipeline/trim modules),
together with theorems settling the spec claims.

JavaScript numbers are modelled as rationals (`ℚ`); every arithmetic
operation used by the code (+, -, *, /, min, max, rounding, comparison)
is exact on the values the claims are about. `Math.round` rounds half
toward +∞, which is `⌊x + 1/2⌋`.
-/

namespace OpenScreen

/-- JS `Math.round`: round half toward positive infinity. -/
def jsRound (q : ℚ) : ℤ := (q + 1/2).floor

/-- Left-pad a string with zeros to the given length. -/
def padZeros (s : String) (len : Nat) : String :=
  String.mk (List.replicate (len - s.length) '0') ++ s

/-- `Number.prototype.toFixed(3)` on a non-negative value: the integer
`n` with `n/1000` closest to the value (ties pick the larger `n`),
rendered with exactly three decimals. -/
def toFixed3abs (q : ℚ) : String :=
  let n := (q * 1000 + 1/2).floor
  let m := n.toNat
  toString (m / 1000) ++ "." ++ padZeros (toString (m % 1000)) 3

/-- `Number.prototype.toFixed(3)`: sign handled first, as in ECMA-262. -/
def toFixed3 (q : ℚ) : String :=
  if q < 0 then "-" ++ toFixed3abs (-q) else toFixed3abs q

/-- Render a fixed-point decimal `n / 10^d` (used by `jsNumRepr`). -/
def renderFixed (n : ℤ) (d : Nat) : String :=
  let m := n.natAbs
  (if n < 0 then "-" else "") ++
    toString (m / 10 ^ d) ++ "." ++ padZeros (toString (m % 10 ^ d)) d

/-- JS default number-to-string conversion (template-literal
interpolation), idealized over ℚ: integers print as integers, finite
decimal fractions print with the minimal number of decimals.  Every
value interpolated this way by the embedded code is an integer or a
short finite decimal, where this rendering agrees with JS. -/
def jsNumRepr (q : ℚ) : String :=
  if q.den = 1 then toString q.num
  else
    match (List.range 30).find? (fun k => (q * 10 ^ (k + 1)).den = 1) with
    | some k => renderFixed (q * 10 ^ (k + 1)).num (k + 1)
    | none => renderFixed ((q * 10 ^ 17 + 1/2).floor) 17

-- ### types.ts

/-- `ZoomDepth = 1 | 2 | 3 | 4 | 5 | 6`. -/
inductive ZoomDepth where
  | d1 | d2 | d3 | d4 | d5 | d6
deriving DecidableEq

/-- `ZOOM_DEPTH_SCALES` from types.ts. -/
def ZOOM_DEPTH_SCALES : ZoomDepth → ℚ
  | .d1 => 5/4
  | .d2 => 3/2
  | .d3 => 9/5
  | .d4 => 11/5
  | .d5 => 7/2
  | .d6 => 5

structure ZoomFocus where
  cx : ℚ
  cy : ℚ
deriving DecidableEq

structure ZoomRegion where
  id : String
  startMs : ℚ
  endMs : ℚ
  depth : ZoomDepth
  focus : ZoomFocus
deriving DecidableEq

structure CropRegion where
  x : ℚ
  y : ℚ
  width : ℚ
  height : ℚ
deriving DecidableEq

structure TrimRegion where
  id : String
  startMs : ℚ
  endMs : ℚ
deriving DecidableEq

-- ### zoom.ts

def TRANSITION_MS : ℚ := 320

/-- `smoothStep` from zoom.ts: clamp to [0,1], then `c*c*(3-2c)`. -/
def smoothStep (t : ℚ) : ℚ :=
  let c := max 0 (min 1 t)
  c * c * (3 - 2 * c)

/-- `clamp` from zoom.ts (the NaN branch cannot arise over ℚ). -/
def clamp (v minV maxV : ℚ) : ℚ := min maxV (max minV v)

/-- `computeRegionStrength` from zoom.ts. -/
def computeRegionStrength (region : ZoomRegion) (timeMs : ℚ) : ℚ :=
  let leadInStart := region.startMs - TRANSITION_MS
  let leadOutEnd := region.endMs + TRANSITION_MS
  if timeMs < leadInStart ∨ timeMs > leadOutEnd then 0
  else
    let fadeIn := smoothStep ((timeMs - leadInStart) / TRANSITION_MS)
    let fadeOut := smoothStep ((leadOutEnd - timeMs) / TRANSITION_MS)
    min fadeIn fadeOut

/-- `findDominantRegion` from zoom.ts: fold over the regions keeping
the strictly strongest one (`s > bestStrength`). -/
def findDominantRegion (regions : List ZoomRegion) (timeMs : ℚ) :
    Option ZoomRegion × ℚ :=
  regions.foldl
    (fun best r =>
      let s := computeRegionStrength r timeMs
      if best.2 < s then (some r, s) else best)
    (none, 0)

/-- `clampFocus` from zoom.ts. -/
def clampFocus (focus : ZoomFocus) (depth : ZoomDepth) : ZoomFocus :=
  let scale := ZOOM_DEPTH_SCALES depth
  let margin := 1 / (2 * scale)
  { cx := clamp focus.cx margin (1 - margin)
    cy := clamp focus.cy margin (1 - margin) }

structure ZoomKeyframe where
  timeMs : ℚ
  cropWidth : ℚ
  cropHeight : ℚ
  centerX : ℚ
  centerY : ℚ
deriving DecidableEq

/-- Body of the sampling loop of `sampleZoomKeyframes`: the keyframe
pushed at time `t`. -/
def zoomKeyframeAt (regions : List ZoomRegion) (t : ℚ) : ZoomKeyframe :=
  match findDominantRegion regions t with
  | (some region, strength) =>
      if 0 < strength then
        let scale := ZOOM_DEPTH_SCALES region.depth
        let clamped := clampFocus region.focus region.depth
        let zoomFraction := 1 / (1 + (scale - 1) * strength)
        { timeMs := t, cropWidth := zoomFraction, cropHeight := zoomFraction
          centerX := 1/2 + (clamped.cx - 1/2) * strength
          centerY := 1/2 + (clamped.cy - 1/2) * strength }
      else { timeMs := t, cropWidth := 1, cropHeight := 1, centerX := 1/2, centerY := 1/2 }
  | (none, _) =>
      { timeMs := t, cropWidth := 1, cropHeight := 1, centerX := 1/2, centerY := 1/2 }

/-- `sampleZoomKeyframes` from zoom.ts.  The source loop is
`for (t = 0; t <= durationMs; t += sampleIntervalMs)`, i.e. it emits
the ticks `k * interval` for `k = 0, …, ⌊duration / interval⌋`; the
loop does not terminate for a non-positive interval, so the embedding
is stated for positive intervals and non-negative durations (and
returns `[]` otherwise). -/
def sampleZoomKeyframes (regions : List ZoomRegion) (durationMs : ℚ)
    (sampleIntervalMs : ℚ := 33) : List ZoomKeyframe :=
  if 0 < sampleIntervalMs ∧ 0 ≤ durationMs then
    (List.range ((durationMs / sampleIntervalMs).floor.toNat + 1)).map
      (fun k => zoomKeyframeAt regions (k * sampleIntervalMs))
  else []

/-- `generateStaticZoomFilter` from zoom.ts. -/
def generateStaticZoomFilter (focus : ZoomFocus) (depth : ZoomDepth)
    (inputWidth inputHeight : ℚ) : String :=
  let scale := ZOOM_DEPTH_SCALES depth
  let clamped := clampFocus focus depth
  let cropW := jsRound (inputWidth / scale)
  let cropH := jsRound (inputHeight / scale)
  let cropX := jsRound (clamped.cx * inputWidth - (cropW : ℚ) / 2)
  let cropY := jsRound (clamped.cy * inputHeight - (cropH : ℚ) / 2)
  "crop=" ++ toString cropW ++ ":" ++ toString cropH ++ ":" ++
    toString cropX ++ ":" ++ toString cropY ++
    ",scale=" ++ jsNumRepr inputWidth ++ ":" ++ jsNumRepr inputHeight ++
    ":flags=lanczos"

-- ### crop.ts

/-- `generateCropFilter` from crop.ts: normalized region → pixels by
rounding, then force even width/height (`w % 2 === 0 ? w : w - 1`). -/
def generateCropFilter (crop : CropRegion) (inputWidth inputHeight : ℚ) : String :=
  let x := jsRound (crop.x * inputWidth)
  let y := jsRound (crop.y * inputHeight)
  let w := jsRound (crop.width * inputWidth)
  let h := jsRound (crop.height * inputHeight)
  let evenW := if w % 2 = 0 then w else w - 1
  let evenH := if h % 2 = 0 then h else h - 1
  "crop=" ++ toString evenW ++ ":" ++ toString evenH ++ ":" ++
    toString x ++ ":" ++ toString y

-- ### annotations.ts

inductive AnnotationType where
  | text | arrow
deriving DecidableEq

inductive ArrowDirection where
  | up | down | left | right | upRight | upLeft | downRight | downLeft
deriving DecidableEq

structure AnnotationRegion where
  id : String
  startMs : ℚ
  endMs : ℚ
  type : AnnotationType
  text : Option String := none
  x : ℚ
  y : ℚ
  fontSize : Option ℚ := none
  fontColor : Option String := none
  fontFamily : Option String := none
  backgroundColor : Option String := none
  arrowDirection : Option ArrowDirection := none
  arrowColor : Option String := none
  arrowSize : Option ℚ := none
deriving DecidableEq

/-- `escapeDrawtext` from annotations.ts: the chained global
replacements, in source order. -/
def escapeDrawtext (text : String) : String :=
  ((((text.replace "\\" "\\\\\\\\").replace
      "\x27" "\x27\\\x27\x27").replace
      ":" "\\:").replace
      "%" "%%").replace
      "\n" "\\n"

/-- `toFFmpegColor` from annotations.ts. -/
def toFFmpegColor (hex : String) : String :=
  if hex = "transparent" then "0x00000000"
  else if hex.startsWith "#" then "0x" ++ hex.drop 1
  else hex

/-- `textAnnotationFilter` from annotations.ts. -/
def textAnnotationFilter (ann : AnnotationRegion)
    (canvasWidth canvasHeight : ℚ) : String :=
  let x := jsRound ((ann.x / 100) * canvasWidth)
  let y := jsRound ((ann.y / 100) * canvasHeight)
  let fontSize := ann.fontSize.getD 32
  let fontColor := toFFmpegColor (ann.fontColor.getD "#ffffff")
  let fontFamily := ann.fontFamily.getD "sans-serif"
  let text := escapeDrawtext (ann.text.getD "")
  let startSec := ann.startMs / 1000
  let endSec := ann.endMs / 1000
  let parts : List String :=
    ["drawtext=text=\x27" ++ text ++ "\x27",
     "x=" ++ toString x,
     "y=" ++ toString y,
     "fontsize=" ++ jsNumRepr fontSize,
     "fontcolor=" ++ fontColor,
     "fontfile=\x27\x27",
     "font=\x27" ++ fontFamily ++ "\x27",
     "enable=\x27between(t," ++ toFixed3 startSec ++ "," ++ toFixed3 endSec ++ ")\x27"]
  let parts :=
    match ann.backgroundColor with
    | some bg =>
        -- JS truthiness: the empty string is falsy
        if bg ≠ "" ∧ bg ≠ "transparent" then
          parts ++ ["box=1", "boxcolor=" ++ toFFmpegColor bg, "boxborderw=8"]
        else parts
    | none => parts
  String.intercalate ":" parts

structure ArrowCoords where
  shaftX1 : ℤ
  shaftY1 : ℤ
  shaftX2 : ℤ
  shaftY2 : ℤ

/-- `getArrowCoords` from annotations.ts. -/
def getArrowCoords (direction : ArrowDirection) (cx cy : ℤ) (size : ℚ) :
    ArrowCoords :=
  let half := jsRound (size / 2)
  match direction with
  | .right => ⟨cx - half, cy, cx + half, cy⟩
  | .left => ⟨cx + half, cy, cx - half, cy⟩
  | .up => ⟨cx, cy + half, cx, cy - half⟩
  | .down => ⟨cx, cy - half, cx, cy + half⟩
  | .upRight => ⟨cx - half, cy + half, cx + half, cy - half⟩
  | .upLeft => ⟨cx + half, cy + half, cx - half, cy - half⟩
  | .downRight => ⟨cx - half, cy - half, cx + half, cy + half⟩
  | .downLeft => ⟨cx + half, cy - half, cx - half, cy + half⟩

/-- `arrowAnnotationFilter` from annotations.ts.  The JS `a || b`
fallbacks pick `thickness` when the shaft extent is `0` (falsy). -/
def arrowAnnotationFilter (ann : AnnotationRegion)
    (canvasWidth canvasHeight : ℚ) : String :=
  let cx := jsRound ((ann.x / 100) * canvasWidth)
  let cy := jsRound ((ann.y / 100) * canvasHeight)
  let size := ann.arrowSize.getD 60
  let color := toFFmpegColor (ann.arrowColor.getD "#34B27B")
  let direction := ann.arrowDirection.getD .right
  let startSec := ann.startMs / 1000
  let endSec := ann.endMs / 1000
  let enable := "enable=\x27between(t," ++ toFixed3 startSec ++ "," ++ toFixed3 endSec ++ ")\x27"
  let c := getArrowCoords direction cx cy size
  let thickness : ℤ := max 3 (jsRound (size / 15))
  let shaftW : ℤ := if (c.shaftX2 - c.shaftX1).natAbs = 0 then thickness else ((c.shaftX2 - c.shaftX1).natAbs : ℤ)
  let shaftH : ℤ := if (c.shaftY2 - c.shaftY1).natAbs = 0 then thickness else ((c.shaftY2 - c.shaftY1).natAbs : ℤ)
  let shaftX := min c.shaftX1 c.shaftX2
  let shaftY := min c.shaftY1 c.shaftY2
  "drawbox=x=" ++ toString shaftX ++ ":y=" ++ toString shaftY ++
    ":w=" ++ toString shaftW ++ ":h=" ++ toString shaftH ++
    ":color=" ++ color ++ ":t=fill:" ++ enable

/-- `generateAnnotationFilters` from annotations.ts: text annotations
are emitted only when `ann.text` is truthy (present and non-empty). -/
def generateAnnotationFilters (annotations : List AnnotationRegion)
    (canvasWidth canvasHeight : ℚ) : String :=
  if annotations.isEmpty then ""
  else
    let filters := annotations.foldl
      (fun acc ann =>
        match ann.type with
        | .text =>
            match ann.text with
            | some t => if t ≠ "" then acc ++ [textAnnotationFilter ann canvasWidth canvasHeight] else acc
            | none => acc
        | .arrow => acc ++ [arrowAnnotationFilter ann canvasWidth canvasHeight])
      []
    String.intercalate "," filters

-- ### background.ts

inductive BackgroundType where
  | color | gradient | image | blur
deriving DecidableEq

structure BackgroundConfig where
  type : BackgroundType
  color : Option String := none
  gradient : Option String := none
  imagePath : Option String := none
  blurRadius : Option ℚ := none
  padding : Option ℚ := none
  borderRadius : Option ℚ := none
deriving DecidableEq

/-- The rounded-corner alpha-mask chain shared (textually duplicated) by the
three background variants: `[vid]format=yuva420p,geq=...[rounded]`. -/
def roundedMaskFilter (r : ℚ) : String :=
  let rs := jsNumRepr r
  "[vid]format=yuva420p," ++
    "geq=lum=\x27lum(X,Y)\x27:cb=\x27cb(X,Y)\x27:cr=\x27cr(X,Y)\x27:" ++
    "a=\x27if(gt(pow(min(X,W-X)-" ++ rs ++ ",2)+pow(min(Y,H-Y)-" ++ rs ++
    ",2),pow(" ++ rs ++ ",2))*" ++
    "lt(min(X,W-X)," ++ rs ++ ")*lt(min(Y,H-Y)," ++ rs ++ "),0,255)\x27[rounded]"

/-- `colorBackgroundFilter` from background.ts. -/
def colorBackgroundFilter (color : String) (videoWidth videoHeight padding borderRadius : ℚ) :
    String :=
  let padPx := jsRound ((padding / 100) * min videoWidth videoHeight)
  let canvasW := videoWidth
  let canvasH := videoHeight
  let innerW := canvasW - (padPx : ℚ) * 2
  let innerH := canvasH - (padPx : ℚ) * 2
  let ffColor := if color.startsWith "#" then "0x" ++ color.drop 1 else color
  let filters : List String :=
    ["[0:v]scale=" ++ jsNumRepr innerW ++ ":" ++ jsNumRepr innerH ++ ":flags=lanczos[vid]",
     "color=c=" ++ ffColor ++ ":s=" ++ jsNumRepr canvasW ++ "x" ++ jsNumRepr canvasH ++ ":d=1[bg]"]
  let filters :=
    if 0 < borderRadius then
      filters ++ [roundedMaskFilter borderRadius,
        "[bg][rounded]overlay=" ++ toString padPx ++ ":" ++ toString padPx ++ ":format=auto"]
    else
      filters ++ ["[bg][vid]overlay=" ++ toString padPx ++ ":" ++ toString padPx ++ ":format=auto"]
  String.intercalate "; " filters

/-- `blurBackgroundFilter` from background.ts. -/
def blurBackgroundFilter (blurRadius videoWidth videoHeight padding borderRadius : ℚ) :
    String :=
  let padPx := jsRound ((padding / 100) * min videoWidth videoHeight)
  let innerW := videoWidth - (padPx : ℚ) * 2
  let innerH := videoHeight - (padPx : ℚ) * 2
  let filters : List String :=
    ["[0:v]scale=" ++ jsNumRepr videoWidth ++ ":" ++ jsNumRepr videoHeight ++
       ":flags=lanczos,boxblur=" ++ jsNumRepr blurRadius ++ ":" ++ jsNumRepr blurRadius ++ "[bg]",
     "[0:v]scale=" ++ jsNumRepr innerW ++ ":" ++ jsNumRepr innerH ++ ":flags=lanczos[vid]"]
  let filters :=
    if 0 < borderRadius then
      filters ++ [roundedMaskFilter borderRadius,
        "[bg][rounded]overlay=" ++ toString padPx ++ ":" ++ toString padPx ++ ":format=auto"]
    else
      filters ++ ["[bg][vid]overlay=" ++ toString padPx ++ ":" ++ toString padPx ++ ":format=auto"]
  String.intercalate "; " filters

/-- `imageBackgroundFilter` from background.ts. -/
def imageBackgroundFilter (videoWidth videoHeight padding borderRadius : ℚ) : String :=
  let padPx := jsRound ((padding / 100) * min videoWidth videoHeight)
  let innerW := videoWidth - (padPx : ℚ) * 2
  let innerH := videoHeight - (padPx : ℚ) * 2
  let filters : List String :=
    ["[1:v]scale=" ++ jsNumRepr videoWidth ++ ":" ++ jsNumRepr videoHeight ++
       ":flags=lanczos:force_original_aspect_ratio=increase,crop=" ++
       jsNumRepr videoWidth ++ ":" ++ jsNumRepr videoHeight ++ "[bg]",
     "[0:v]scale=" ++ jsNumRepr innerW ++ ":" ++ jsNumRepr innerH ++ ":flags=lanczos[vid]"]
  let filters :=
    if 0 < borderRadius then
      filters ++ [roundedMaskFilter borderRadius,
        "[bg][rounded]overlay=" ++ toString padPx ++ ":" ++ toString padPx ++ ":format=auto"]
    else
      filters ++ ["[bg][vid]overlay=" ++ toString padPx ++ ":" ++ toString padPx ++ ":format=auto"]
  String.intercalate "; " filters

/-- `generateBackgroundFilter` from background.ts. -/
def generateBackgroundFilter (config : BackgroundConfig) (videoWidth videoHeight : ℚ) :
    String :=
  let padding := config.padding.getD 0
  let borderRadius := config.borderRadius.getD 0
  if padding = 0 ∧ borderRadius = 0 then
    "scale=" ++ jsNumRepr videoWidth ++ ":" ++ jsNumRepr videoHeight
  else
    match config.type with
    | .color =>
        colorBackgroundFilter (config.color.getD "#000000") videoWidth videoHeight padding borderRadius
    | .blur =>
        blurBackgroundFilter (config.blurRadius.getD 20) videoWidth videoHeight padding borderRadius
    | .image => imageBackgroundFilter videoWidth videoHeight padding borderRadius
    | .gradient =>
        colorBackgroundFilter "#1a1a2e" videoWidth videoHeight padding borderRadius

-- ### zoom.ts — animated filter (generateZoomFilter / buildCropExpressions)

/-- Regions sorted ascending by `startMs` — JS
`[...regions].sort((a, b) => a.startMs - b.startMs)` (a stable ascending
sort). -/
def sortRegionsByStart (regions : List ZoomRegion) : List ZoomRegion :=
  regions.mergeSort (fun a b => decide (a.startMs ≤ b.startMs))

/-- The `leadInExpr` closure from `buildCropExpressions`. -/
def leadInExpr (startSec activeStart transDur : ℚ) (full zoomed : ℚ) : String :=
  let range := "between(t," ++ toFixed3 startSec ++ "," ++ toFixed3 activeStart ++ ")"
  let progress := "(t-" ++ toFixed3 startSec ++ ")/" ++ toFixed3 transDur
  let ss := "(3*pow(" ++ progress ++ ",2)-2*pow(" ++ progress ++ ",3))"
  "if(" ++ range ++ ", " ++ jsNumRepr full ++ "+(" ++ jsNumRepr zoomed ++ "-" ++
    jsNumRepr full ++ ")*" ++ ss ++ ", "

/-- The `activeExpr` closure from `buildCropExpressions`. -/
def activeExpr (activeStart activeEnd : ℚ) (zoomed : ℚ) : String :=
  let range := "between(t," ++ toFixed3 activeStart ++ "," ++ toFixed3 activeEnd ++ ")"
  "if(" ++ range ++ ", " ++ jsNumRepr zoomed ++ ", "

/-- The `leadOutExpr` closure from `buildCropExpressions`. -/
def leadOutExpr (activeEnd endSec transDur : ℚ) (full zoomed : ℚ) : String :=
  let range := "between(t," ++ toFixed3 activeEnd ++ "," ++ toFixed3 endSec ++ ")"
  let progress := "(" ++ toFixed3 endSec ++ "-t)/" ++ toFixed3 transDur
  let ss := "(3*pow(" ++ progress ++ ",2)-2*pow(" ++ progress ++ ",3))"
  "if(" ++ range ++ ", " ++ jsNumRepr full ++ "+(" ++ jsNumRepr zoomed ++ "-" ++
    jsNumRepr full ++ ")*" ++ ss ++ ", "

/-- The per-region piece of each of the four crop expressions
(lead-in, active and lead-out branches concatenated). -/
def regionExprPiece (region : ZoomRegion) (full zoomed : ℚ) : String :=
  let startSec := (region.startMs - TRANSITION_MS) / 1000
  let endSec := (region.endMs + TRANSITION_MS) / 1000
  let activeStart := region.startMs / 1000
  let activeEnd := region.endMs / 1000
  let transDur := TRANSITION_MS / 1000
  leadInExpr startSec activeStart transDur full zoomed ++
    activeExpr activeStart activeEnd zoomed ++
    leadOutExpr activeEnd endSec transDur full zoomed

/-- `buildCropExpressions` from zoom.ts, returning `(w, h, x, y)`
expression strings. -/
def buildCropExpressions (regions : List ZoomRegion) (w h : ℚ) :
    String × String × String × String :=
  if regions.isEmpty then (jsNumRepr w, jsNumRepr h, "0", "0")
  else
    let sorted := sortRegionsByStart regions
    let pieces := sorted.map (fun region =>
      let scale := ZOOM_DEPTH_SCALES region.depth
      let focus := clampFocus region.focus region.depth
      let cropW := jsRound (w / scale)
      let cropH := jsRound (h / scale)
      let cropX := jsRound (focus.cx * w - (cropW : ℚ) / 2)
      let cropY := jsRound (focus.cy * h - (cropH : ℚ) / 2)
      (regionExprPiece region w (cropW : ℚ),
       regionExprPiece region h (cropH : ℚ),
       regionExprPiece region 0 (cropX : ℚ),
       regionExprPiece region 0 (cropY : ℚ)))
    let numExprs := sorted.length * 3
    let closeParens := String.mk (List.replicate numExprs ')')
    let combine (exprs : List String) (defaultVal : ℚ) : String :=
      String.join exprs ++ jsNumRepr defaultVal ++ closeParens
    (combine (pieces.map (·.1)) w,
     combine (pieces.map (·.2.1)) h,
     combine (pieces.map (·.2.2.1)) 0,
     combine (pieces.map (·.2.2.2)) 0)

/-- `generateZoomFilter` from zoom.ts. -/
def generateZoomFilter (regions : List ZoomRegion) (inputWidth inputHeight : ℚ)
    (fps : ℚ := 30) : String :=
  if regions.isEmpty then
    "scale=" ++ jsNumRepr inputWidth ++ ":" ++ jsNumRepr inputHeight
  else
    let parts := buildCropExpressions regions inputWidth inputHeight
    "crop=w=" ++ parts.1 ++ ":h=" ++ parts.2.1 ++ ":x=" ++ parts.2.2.1 ++
      ":y=" ++ parts.2.2.2 ++ ",scale=" ++ jsNumRepr inputWidth ++ ":" ++
      jsNumRepr inputHeight ++ ":flags=lanczos"

-- ### trim.ts

structure Segment where
  startSec : ℚ
  endSec : ℚ
deriving DecidableEq

/-- Trim regions sorted ascending by `startMs` — JS
`[...trimRegions].sort((a, b) => a.startMs - b.startMs)`. -/
def sortByStart (trimRegions : List TrimRegion) : List TrimRegion :=
  trimRegions.mergeSort (fun a b => decide (a.startMs ≤ b.startMs))

/-- The loop body of `computeKeptSegments`: on state
`(segments, cursor)`, emit `[cursor, trimStart)` when the cursor
precedes the cut's start, then move the cursor to the cut's end. -/
def keptStep (acc : List Segment × ℚ) (trim : TrimRegion) : List Segment × ℚ :=
  let trimStart := trim.startMs / 1000
  let trimEnd := trim.endMs / 1000
  (if acc.2 < trimStart then acc.1 ++ [⟨acc.2, trimStart⟩] else acc.1, trimEnd)

/-- `computeKeptSegments` from trim.ts: cursor walk over the cut
regions sorted by start, then a trailing segment. -/
def computeKeptSegments (trimRegions : List TrimRegion) (totalDurationMs : ℚ) :
    List Segment :=
  if trimRegions.isEmpty then [⟨0, totalDurationMs / 1000⟩]
  else
    let sorted := sortByStart trimRegions
    let state := sorted.foldl keptStep ([], 0)
    let totalSec := totalDurationMs / 1000
    if state.2 < totalSec then state.1 ++ [⟨state.2, totalSec⟩] else state.1

/-- `computeEffectiveDuration` from trim.ts. -/
def computeEffectiveDuration (trimRegions : List TrimRegion) (totalDurationMs : ℚ) : ℚ :=
  let trimmedMs := trimRegions.foldl (fun sum r => sum + (r.endMs - r.startMs)) 0
  totalDurationMs - trimmedMs

/-- The multi-segment (`trim`/`atrim` + `setpts` + `concat`) tail of
`generateTrimFilter`: one video (and, with audio, one audio) chain per
kept segment, then the concat line. -/
def multiSegmentTrimFilter (segments : List Segment) (hasAudio : Bool) : String :=
  let indexed := segments.enum
  let filters := indexed.foldl
    (fun (acc : List String) p =>
      let acc := acc ++ ["[0:v]trim=start=" ++ toFixed3 p.2.startSec ++ ":end=" ++
        toFixed3 p.2.endSec ++ ",setpts=PTS-STARTPTS[v" ++ toString p.1 ++ "]"]
      if hasAudio then
        acc ++ ["[0:a]atrim=start=" ++ toFixed3 p.2.startSec ++ ":end=" ++
          toFixed3 p.2.endSec ++ ",asetpts=PTS-STARTPTS[a" ++ toString p.1 ++ "]"]
      else acc)
    []
  let vLabels := String.join (indexed.map (fun p => "[v" ++ toString p.1 ++ "]"))
  let aLabels := if hasAudio then
      String.join (indexed.map (fun p => "[a" ++ toString p.1 ++ "]"))
    else ""
  let n := segments.length
  let filters := if hasAudio then
      filters ++ [vLabels ++ aLabels ++ "concat=n=" ++ toString n ++ ":v=1:a=1[outv][outa]"]
    else filters ++ [vLabels ++ "concat=n=" ++ toString n ++ ":v=1:a=0[outv]"]
  String.intercalate "; " filters

/-- `generateTrimFilter` from trim.ts. -/
def generateTrimFilter (trimRegions : List TrimRegion) (totalDurationMs : ℚ)
    (hasAudio : Bool := true) : String :=
  let segments := computeKeptSegments trimRegions totalDurationMs
  match segments with
  | [] => ""
  | [seg] =>
      if seg.startSec = 0 then
        let filters := ["[0:v]trim=start=" ++ jsNumRepr seg.startSec ++ ":end=" ++
          jsNumRepr seg.endSec ++ ",setpts=PTS-STARTPTS[outv]"]
        let filters := if hasAudio then
            filters ++ ["[0:a]atrim=start=" ++ jsNumRepr seg.startSec ++ ":end=" ++
              jsNumRepr seg.endSec ++ ",asetpts=PTS-STARTPTS[outa]"]
          else filters
        String.intercalate "; " filters
      else multiSegmentTrimFilter segments hasAudio
  | _ => multiSegmentTrimFilter segments hasAudio

-- ### pipeline.ts

structure VideoInfo where
  width : ℚ
  height : ℚ
  durationMs : ℚ
  fps : ℚ
deriving DecidableEq

structure ZoomSettings where
  regions : List ZoomRegion
  transitionMs : Option ℚ := none
  smoothing : Option ℚ := none
deriving DecidableEq

structure ProcessingConfig where
  inputPath : String
  outputPath : String
  video : VideoInfo
  zoom : Option ZoomSettings := none
  crop : Option CropRegion := none
  trim : Option (List TrimRegion) := none
  background : Option BackgroundConfig := none
  annotations : Option (List AnnotationRegion) := none
  outputWidth : Option ℚ := none
  outputHeight : Option ℚ := none
  outputFps : Option ℚ := none
deriving DecidableEq

structure PipelineStep where
  description : String
  args : List String
deriving DecidableEq

/-- `config.trim && config.trim.length > 0`. -/
def needsTrim (config : ProcessingConfig) : Bool :=
  match config.trim with
  | some l => !l.isEmpty
  | none => false

/-- `config.zoom && config.zoom.regions.length > 0`. -/
def needsZoom (config : ProcessingConfig) : Bool :=
  match config.zoom with
  | some z => !z.regions.isEmpty
  | none => false

/-- `config.crop && (x !== 0 || y !== 0 || width !== 1 || height !== 1)`. -/
def needsCrop (config : ProcessingConfig) : Bool :=
  match config.crop with
  | some c => decide (c.x ≠ 0) || decide (c.y ≠ 0) || decide (c.width ≠ 1) || decide (c.height ≠ 1)
  | none => false

/-- `config.background && (config.background.padding ?? 0) > 0`. -/
def needsBackground (config : ProcessingConfig) : Bool :=
  match config.background with
  | some bg => decide (0 < bg.padding.getD 0)
  | none => false

/-- `config.annotations && config.annotations.length > 0`. -/
def needsAnnotations (config : ProcessingConfig) : Bool :=
  match config.annotations with
  | some l => !l.isEmpty
  | none => false

/-- The last index of a character in a list, JS
`String.prototype.lastIndexOf` restricted to a single character. -/
def lastIndexOfChar (c : Char) : List Char → Option Nat
  | [] => none
  | a :: rest =>
      match lastIndexOfChar c rest with
      | some i => some (i + 1)
      | none => if a = c then some 0 else none

/-- `intermediateOutput` from pipeline.ts: insert `_step<N>` before the
extension.  When the path has no dot, JS `lastIndexOf` yields `-1` and
`substring(-1)`/`substring(0,-1)` clamp to the whole string and the
empty string respectively. -/
def intermediateOutput (finalPath : String) (stepIndex : Nat) : String :=
  match lastIndexOfChar '.' finalPath.toList with
  | some i => finalPath.take i ++ "_step" ++ toString stepIndex ++ finalPath.drop i
  | none => "_step" ++ toString stepIndex ++ finalPath

/-- The list of `-vf` filter parts assembled by step 2 of
`buildPipeline` (crop, then zoom, then annotations; the annotation
filter only when non-empty). -/
def vfPartsOf (config : ProcessingConfig) : List String :=
  let video := config.video
  (if needsCrop config then
      [generateCropFilter (config.crop.getD ⟨0, 0, 1, 1⟩) video.width video.height]
    else []) ++
  (if needsZoom config then
      [generateZoomFilter ((config.zoom.getD ⟨[], none, none⟩).regions) video.width video.height video.fps]
    else []) ++
  (if needsAnnotations config then
      let annFilter := generateAnnotationFilters (config.annotations.getD [])
        (config.outputWidth.getD video.width) (config.outputHeight.getD video.height)
      if annFilter ≠ "" then [annFilter] else []
    else [])

/-- Steps 2–3 of `buildPipeline` (the part after the trim block):
`steps` are the already-emitted steps, `currentInput` the current input
path and `stepIndex` the next intermediate index. -/
def pipelineRest (config : ProcessingConfig) (steps : List PipelineStep)
    (currentInput : String) (stepIndex : Nat) : List PipelineStep :=
  let vfParts := vfPartsOf config
  if needsBackground config then
    let bg := config.background.getD ⟨.color, none, none, none, none, none, none⟩
    let bgFilter := generateBackgroundFilter bg
      (config.outputWidth.getD config.video.width) (config.outputHeight.getD config.video.height)
    let state :=
      if !vfParts.isEmpty then
        let vfOutput := intermediateOutput config.outputPath stepIndex
        (steps ++ [⟨"Apply zoom/crop/annotations",
          ["ffmpeg", "-y", "-i", currentInput, "-vf", String.intercalate "," vfParts,
           "-c:v", "libx264", "-preset", "fast", "-crf", "18", "-c:a", "copy", vfOutput]⟩],
         vfOutput)
      else (steps, currentInput)
    let bgArgs := ["ffmpeg", "-y", "-i", state.2] ++
      (if bg.type = .image ∧ bg.imagePath.getD "" ≠ "" then ["-i", bg.imagePath.getD ""] else []) ++
      ["-filter_complex", bgFilter, "-c:v", "libx264", "-preset", "fast", "-crf", "18",
       "-c:a", "copy", config.outputPath]
    state.1 ++ [⟨"Apply background/wallpaper", bgArgs⟩]
  else if !vfParts.isEmpty then
    steps ++ [⟨"Apply video effects (zoom/crop/annotations)",
      ["ffmpeg", "-y", "-i", currentInput, "-vf", String.intercalate "," vfParts,
       "-c:v", "libx264", "-preset", "fast", "-crf", "18", "-c:a", "copy",
       config.outputPath]⟩]
  else if steps.isEmpty then
    [⟨"Copy (no effects)",
      ["ffmpeg", "-y", "-i", currentInput, "-c", "copy", config.outputPath]⟩]
  else steps

/-- `buildPipeline` from pipeline.ts.  The source's trim block either
returns early (single kept segment, no other effect), emits a
concat-trim step to an intermediate (more than one segment), or emits
nothing; afterwards steps 2–3 run (`pipelineRest`). -/
def buildPipeline (config : ProcessingConfig) : List PipelineStep :=
  let video := config.video
  if needsTrim config then
    let segments := computeKeptSegments (config.trim.getD []) video.durationMs
    match segments with
    | [seg] =>
        if !needsZoom config && !needsCrop config && !needsBackground config &&
            !needsAnnotations config then
          [⟨"Trim video",
            ["ffmpeg", "-y", "-ss", toFixed3 seg.startSec, "-to", toFixed3 seg.endSec,
             "-i", config.inputPath, "-c:v", "libx264", "-preset", "fast", "-crf", "18",
             "-c:a", "aac", config.outputPath]⟩]
        else pipelineRest config [] config.inputPath 0
    | [] => pipelineRest config [] config.inputPath 0
    | _ :: _ :: _ =>
        let trimOutput := intermediateOutput config.outputPath 0
        let filter := generateTrimFilter (config.trim.getD []) video.durationMs
        pipelineRest config
          [⟨"Trim video (remove cut sections)",
            ["ffmpeg", "-y", "-i", config.inputPath, "-filter_complex", filter,
             "-map", "[outv]", "-map", "[outa]", "-c:v", "libx264", "-preset", "fast",
             "-crf", "18", "-c:a", "aac", trimOutput]⟩]
          trimOutput 1
  else pipelineRest config [] config.inputPath 0

-- ## Theorems

/-- `smoothStep` saturates at `1` from argument `1` on. -/
lemma smoothStep_of_one_le {x : ℚ} (hx : 1 ≤ x) : smoothStep x = 1 := by
  unfold smoothStep
  rw [min_eq_left hx, max_eq_right (by norm_num : (0:ℚ) ≤ 1)]
  norm_num

/-- C1: for a well-formed region (`startMs < endMs`), the strength is 0
strictly outside the transition envelope `[startMs − 320, endMs + 320]`
and exactly 1 throughout `[startMs, endMs]`. -/
theorem claim_C1 (r : ZoomRegion) (t : ℚ) (h : r.startMs < r.endMs) :
    ((t < r.startMs - 320 ∨ r.endMs + 320 < t) → computeRegionStrength r t = 0) ∧
    (r.startMs ≤ t → t ≤ r.endMs → computeRegionStrength r t = 1) := by
  constructor
  · intro hout
    have hcond : t < r.startMs - TRANSITION_MS ∨ t > r.endMs + TRANSITION_MS := by
      simpa [TRANSITION_MS] using hout
    show (if t < r.startMs - TRANSITION_MS ∨ t > r.endMs + TRANSITION_MS then (0:ℚ)
        else min (smoothStep ((t - (r.startMs - TRANSITION_MS)) / TRANSITION_MS))
          (smoothStep ((r.endMs + TRANSITION_MS - t) / TRANSITION_MS))) = 0
    rw [if_pos hcond]
  · intro h1 h2
    have h320 : (0:ℚ) < 320 := by norm_num
    have hcond : ¬(t < r.startMs - TRANSITION_MS ∨ t > r.endMs + TRANSITION_MS) := by
      simp only [TRANSITION_MS]
      push_neg
      constructor <;> linarith
    show (if t < r.startMs - TRANSITION_MS ∨ t > r.endMs + TRANSITION_MS then (0:ℚ)
        else min (smoothStep ((t - (r.startMs - TRANSITION_MS)) / TRANSITION_MS))
          (smoothStep ((r.endMs + TRANSITION_MS - t) / TRANSITION_MS))) = 1
    rw [if_neg hcond]
    have hin : (1:ℚ) ≤ (t - (r.startMs - TRANSITION_MS)) / TRANSITION_MS := by
      simp only [TRANSITION_MS]
      rw [le_div_iff₀ h320]
      linarith
    have hout : (1:ℚ) ≤ (r.endMs + TRANSITION_MS - t) / TRANSITION_MS := by
      simp only [TRANSITION_MS]
      rw [le_div_iff₀ h320]
      linarith
    rw [smoothStep_of_one_le hin, smoothStep_of_one_le hout, min_self]

/-- Witness for C1 at `ZoomRegion{start=1000, end=3000}` and `t=2000`. -/
theorem claim_C1_witness :
    ((1000:ℚ) < 3000) ∧
    (((2000:ℚ) < 1000 - 320 ∨ (3000:ℚ) + 320 < 2000) →
      computeRegionStrength ⟨"z", 1000, 3000, .d1, ⟨1/2, 1/2⟩⟩ 2000 = 0) ∧
    ((1000:ℚ) ≤ 2000 → (2000:ℚ) ≤ 3000 →
      computeRegionStrength ⟨"z", 1000, 3000, .d1, ⟨1/2, 1/2⟩⟩ 2000 = 1) :=
  ⟨by norm_num, claim_C1 ⟨"z", 1000, 3000, .d1, ⟨1/2, 1/2⟩⟩ 2000 (by norm_num)⟩

/-- C5: the crop-filter width and height are always even, and the
documented 1920×1080 scenario produces `crop=1920:1026:0:54`. -/
theorem claim_C5 :
    (∀ (crop : CropRegion) (iw ih : ℚ), ∃ w h x y : ℤ, Even w ∧ Even h ∧
      generateCropFilter crop iw ih =
        "crop=" ++ toString w ++ ":" ++ toString h ++ ":" ++
          toString x ++ ":" ++ toString y) ∧
    generateCropFilter ⟨0, 1/20, 1, 19/20⟩ 1920 1080 = "crop=1920:1026:0:54" := by
  constructor
  · intro crop iw ih
    refine ⟨if jsRound (crop.width * iw) % 2 = 0 then jsRound (crop.width * iw)
        else jsRound (crop.width * iw) - 1,
      if jsRound (crop.height * ih) % 2 = 0 then jsRound (crop.height * ih)
        else jsRound (crop.height * ih) - 1,
      jsRound (crop.x * iw), jsRound (crop.y * ih), ?_, ?_, rfl⟩
    · by_cases hw : jsRound (crop.width * iw) % 2 = 0
      · rw [if_pos hw]
        exact Int.even_iff.mpr hw
      · rw [if_neg hw]
        exact Int.even_sub_one.mpr (fun he => hw (Int.even_iff.mp he))
    · by_cases hh : jsRound (crop.height * ih) % 2 = 0
      · rw [if_pos hh]
        exact Int.even_iff.mpr hh
      · rw [if_neg hh]
        exact Int.even_sub_one.mpr (fun he => hh (Int.even_iff.mp he))
  · with_unfolding_all rfl

/-- C6: the static zoom at focus (0.5, 0.06), depth 3, 1920×1080 first
clamps the focus to the margin `1/(2·1.8) = 5/18` and yields the crop
box 1067×600 at (427, 0). -/
theorem claim_C6 :
    clampFocus ⟨1/2, 3/50⟩ .d3 = ⟨1/2, 5/18⟩ ∧
    generateStaticZoomFilter ⟨1/2, 3/50⟩ .d3 1920 1080 =
      "crop=1067:600:427:0,scale=1920:1080:flags=lanczos" := by
  constructor
  · with_unfolding_all rfl
  · with_unfolding_all rfl

/-- Folding `+ (endMs − startMs)` over a list adds the total length. -/
lemma foldl_add_lengths (l : List TrimRegion) (a : ℚ) :
    l.foldl (fun sum r => sum + (r.endMs - r.startMs)) a =
      a + (l.map (fun r => r.endMs - r.startMs)).sum := by
  induction l generalizing a with
  | nil => simp
  | cons r rest ih =>
      simp only [List.foldl_cons, List.map_cons, List.sum_cons, ih]
      ring

/-- C7: effective duration is the total minus the plain (overlap-blind)
sum of region lengths; adding a region subtracts exactly its length, so
it never increases for a region with `startMs ≤ endMs`. -/
theorem claim_C7 :
    (∀ (ts : List TrimRegion) (d : ℚ),
      computeEffectiveDuration ts d = d - (ts.map (fun r => r.endMs - r.startMs)).sum) ∧
    (∀ (ts : List TrimRegion) (r : TrimRegion) (d : ℚ),
      computeEffectiveDuration (r :: ts) d =
        computeEffectiveDuration ts d - (r.endMs - r.startMs)) ∧
    (∀ (ts : List TrimRegion) (r : TrimRegion) (d : ℚ), r.startMs ≤ r.endMs →
      computeEffectiveDuration (r :: ts) d ≤ computeEffectiveDuration ts d) := by
  have key : ∀ (ts : List TrimRegion) (d : ℚ),
      computeEffectiveDuration ts d = d - (ts.map (fun r => r.endMs - r.startMs)).sum := by
    intro ts d
    show d - ts.foldl (fun sum r => sum + (r.endMs - r.startMs)) 0 = _
    rw [foldl_add_lengths]
    ring
  have step : ∀ (ts : List TrimRegion) (r : TrimRegion) (d : ℚ),
      computeEffectiveDuration (r :: ts) d =
        computeEffectiveDuration ts d - (r.endMs - r.startMs) := by
    intro ts r d
    rw [key, key]
    simp only [List.map_cons, List.sum_cons]
    ring
  exact ⟨key, step, fun ts r d hr => by rw [step]; linarith⟩

/-- The kept-segment cursor walk exactly as the spec states it: with a
cursor, for each cut region emit `[cursor, cutStart)` if the cursor
precedes the cut's start, then set the cursor to the cut's end; after
all cuts emit a trailing segment if the cursor precedes the total
duration (all in seconds, as the source converts). -/
def specCursorWalk (d : ℚ) : List TrimRegion → ℚ → List Segment
  | [], cursor => if cursor < d / 1000 then [⟨cursor, d / 1000⟩] else []
  | t :: rest, cursor =>
      (if cursor < t.startMs / 1000 then [⟨cursor, t.startMs / 1000⟩] else []) ++
        specCursorWalk d rest (t.endMs / 1000)

/-- The fold inside `computeKeptSegments`, then the trailing-segment
step, equals the recursive cursor walk. -/
lemma keptSegments_foldl_eq_walk (d : ℚ) (l : List TrimRegion)
    (acc : List Segment) (cursor : ℚ) :
    (if (l.foldl keptStep (acc, cursor)).2 < d / 1000
      then (l.foldl keptStep (acc, cursor)).1 ++
        [⟨(l.foldl keptStep (acc, cursor)).2, d / 1000⟩]
      else (l.foldl keptStep (acc, cursor)).1) =
      acc ++ specCursorWalk d l cursor := by
  induction l generalizing acc cursor with
  | nil =>
      simp only [List.foldl_nil]
      unfold specCursorWalk
      by_cases hc : cursor < d / 1000
      · rw [if_pos hc, if_pos hc]
      · rw [if_neg hc, if_neg hc, List.append_nil]
  | cons t rest ih =>
      simp only [List.foldl_cons]
      have hstep : keptStep (acc, cursor) t =
          (if cursor < t.startMs / 1000 then acc ++ [⟨cursor, t.startMs / 1000⟩] else acc,
           t.endMs / 1000) := rfl
      rw [hstep, ih]
      have hwalk : specCursorWalk d (t :: rest) cursor =
          (if cursor < t.startMs / 1000 then [⟨cursor, t.startMs / 1000⟩] else []) ++
            specCursorWalk d rest (t.endMs / 1000) := rfl
      rw [hwalk]
      by_cases hc : cursor < t.startMs / 1000
      · rw [if_pos hc, if_pos hc, List.append_assoc]
      · rw [if_neg hc, if_neg hc, List.nil_append]

/-- C3: `computeKeptSegments` is the spec's sorted cursor walk; zero
cut regions give the single whole-clip segment, and the documented
`{5000,10000}` over 60000 ms scenario gives `[{0,5}, {10,60}]`. -/
theorem claim_C3 :
    (∀ (ts : List TrimRegion) (d : ℚ), ts ≠ [] →
      computeKeptSegments ts d = specCursorWalk d (sortByStart ts) 0) ∧
    (∀ d : ℚ, computeKeptSegments [] d = [⟨0, d / 1000⟩]) ∧
    computeKeptSegments [⟨"t1", 5000, 10000⟩] 60000 = [⟨0, 5⟩, ⟨10, 60⟩] := by
  refine ⟨fun ts d hts => ?_, fun d => rfl, by with_unfolding_all rfl⟩
  have hne : ts.isEmpty = false := by
    cases ts with
    | nil => exact absurd rfl hts
    | cons a l => rfl
  have := keptSegments_foldl_eq_walk d (sortByStart ts) [] 0
  rw [List.nil_append] at this
  simp only [computeKeptSegments, hne, Bool.false_eq_true, if_false]
  exact this

/-- Witness for C3's general cursor-walk equation at a one-region list. -/
theorem claim_C3_witness :
    ([⟨"a", 1000, 2000⟩] : List TrimRegion) ≠ [] ∧
    computeKeptSegments [⟨"a", 1000, 2000⟩] 3000 =
      specCursorWalk 3000 (sortByStart [⟨"a", 1000, 2000⟩]) 0 :=
  ⟨by decide, claim_C3.1 [⟨"a", 1000, 2000⟩] 3000 (by decide)⟩

/-- Every keyframe the sampler pushes carries its own tick time. -/
lemma zoomKeyframeAt_timeMs (regions : List ZoomRegion) (t : ℚ) :
    (zoomKeyframeAt regions t).timeMs = t := by
  unfold zoomKeyframeAt
  rcases h : findDominantRegion regions t with ⟨o, s⟩
  cases o with
  | none => rfl
  | some r =>
      by_cases hs : 0 < s
      · simp only [if_pos hs]
      · simp only [if_neg hs]

/-- Every emitted keyframe is the loop body at some tick. -/
lemma sampleZoomKeyframes_mem {regions : List ZoomRegion}
    {durationMs sampleIntervalMs : ℚ} {kf : ZoomKeyframe}
    (hkf : kf ∈ sampleZoomKeyframes regions durationMs sampleIntervalMs) :
    ∃ t : ℚ, kf = zoomKeyframeAt regions t := by
  unfold sampleZoomKeyframes at hkf
  by_cases hc : 0 < sampleIntervalMs ∧ 0 ≤ durationMs
  · rw [if_pos hc] at hkf
    rcases List.mem_map.mp hkf with ⟨k, _, hk⟩
    exact ⟨k * sampleIntervalMs, hk.symm⟩
  · rw [if_neg hc] at hkf
    exact absurd hkf (List.not_mem_nil kf)

/-- C2 (amended): each sampled keyframe blends between full frame and
the dominant region's target by the instantaneous strength `s` — the
centers linearly, `centerX/Y = 0.5 + (clamped − 0.5)·s`, but the crop
size by linear interpolation of the zoom *scale*:
`cropWidth = cropHeight = 1 / (1 + (scale − 1)·s)` (equal to `1/scale`
at `s = 1` and `1` at `s = 0`, but not the linear blend
`1 + (1/scale − 1)·s` in between); with no dominant region or zero
strength the keyframe carries the full-frame values. -/
theorem claim_C2 (regions : List ZoomRegion) (durationMs sampleIntervalMs : ℚ)
    (kf : ZoomKeyframe)
    (hkf : kf ∈ sampleZoomKeyframes regions durationMs sampleIntervalMs) :
    (∀ r : ZoomRegion, (findDominantRegion regions kf.timeMs).1 = some r →
      0 < (findDominantRegion regions kf.timeMs).2 →
      kf.cropWidth =
        1 / (1 + (ZOOM_DEPTH_SCALES r.depth - 1) * (findDominantRegion regions kf.timeMs).2) ∧
      kf.cropHeight =
        1 / (1 + (ZOOM_DEPTH_SCALES r.depth - 1) * (findDominantRegion regions kf.timeMs).2) ∧
      kf.centerX =
        1/2 + ((clampFocus r.focus r.depth).cx - 1/2) * (findDominantRegion regions kf.timeMs).2 ∧
      kf.centerY =
        1/2 + ((clampFocus r.focus r.depth).cy - 1/2) * (findDominantRegion regions kf.timeMs).2) ∧
    ((findDominantRegion regions kf.timeMs).1 = none ∨
        (findDominantRegion regions kf.timeMs).2 ≤ 0 →
      kf.cropWidth = 1 ∧ kf.cropHeight = 1 ∧ kf.centerX = 1/2 ∧ kf.centerY = 1/2) := by
  rcases sampleZoomKeyframes_mem hkf with ⟨t, rfl⟩
  rw [zoomKeyframeAt_timeMs]
  unfold zoomKeyframeAt
  rcases h : findDominantRegion regions t with ⟨o, s⟩
  cases o with
  | none =>
      refine ⟨fun r hr _ => by simp at hr, fun _ => ?_⟩
      and_intros <;> trivial
  | some r₀ =>
      by_cases hs : 0 < s
      · simp only [if_pos hs]
        refine ⟨fun r hr hs2 => ?_, fun habs => ?_⟩
        · have hr0 : r = r₀ := by
            simpa using hr.symm
          subst hr0
          and_intros <;> trivial
        · rcases habs with h' | h'
          · simp at h'
          · exact absurd hs (not_lt.mpr h')
      · simp only [if_neg hs]
        refine ⟨fun r hr hs2 => absurd hs2 hs, fun _ => ?_⟩
        and_intros <;> trivial

set_option maxRecDepth 10000 in
/-- Witness for C2 at one region of depth 2 sampled at tick 840 (where
the dominant strength is 1/2). -/
theorem claim_C2_witness :
    ((⟨840, 4/5, 4/5, 1/2, 1/2⟩ : ZoomKeyframe) ∈
      sampleZoomKeyframes [⟨"z1", 1000, 3000, .d2, ⟨1/2, 1/2⟩⟩] 840 840) ∧
    (∀ r : ZoomRegion,
      (findDominantRegion [⟨"z1", 1000, 3000, .d2, ⟨1/2, 1/2⟩⟩] (840:ℚ)).1 = some r →
      0 < (findDominantRegion [⟨"z1", 1000, 3000, .d2, ⟨1/2, 1/2⟩⟩] (840:ℚ)).2 →
      (4:ℚ)/5 =
        1 / (1 + (ZOOM_DEPTH_SCALES r.depth - 1) *
          (findDominantRegion [⟨"z1", 1000, 3000, .d2, ⟨1/2, 1/2⟩⟩] (840:ℚ)).2) ∧
      (4:ℚ)/5 =
        1 / (1 + (ZOOM_DEPTH_SCALES r.depth - 1) *
          (findDominantRegion [⟨"z1", 1000, 3000, .d2, ⟨1/2, 1/2⟩⟩] (840:ℚ)).2) ∧
      (1:ℚ)/2 =
        1/2 + ((clampFocus r.focus r.depth).cx - 1/2) *
          (findDominantRegion [⟨"z1", 1000, 3000, .d2, ⟨1/2, 1/2⟩⟩] (840:ℚ)).2 ∧
      (1:ℚ)/2 =
        1/2 + ((clampFocus r.focus r.depth).cy - 1/2) *
          (findDominantRegion [⟨"z1", 1000, 3000, .d2, ⟨1/2, 1/2⟩⟩] (840:ℚ)).2) ∧
    ((findDominantRegion [⟨"z1", 1000, 3000, .d2, ⟨1/2, 1/2⟩⟩] (840:ℚ)).1 = none ∨
        (findDominantRegion [⟨"z1", 1000, 3000, .d2, ⟨1/2, 1/2⟩⟩] (840:ℚ)).2 ≤ 0 →
      (4:ℚ)/5 = 1 ∧ (4:ℚ)/5 = 1 ∧ (1:ℚ)/2 = 1/2 ∧ (1:ℚ)/2 = 1/2) :=
  ⟨by with_unfolding_all decide,
    claim_C2 [⟨"z1", 1000, 3000, .d2, ⟨1/2, 1/2⟩⟩] 840 840 ⟨840, 4/5, 4/5, 1/2, 1/2⟩
      (by with_unfolding_all decide)⟩

/-- Counterexample to C2 as stated: at tick 840 of one depth-2 region
(scale 1.5) starting at 1000 ms, the strength is exactly 1/2, the
emitted crop width is `1/(1 + 0.5·0.5) = 4/5`, but the claimed linear
blend `1 + (1/scale − 1)·s` gives `5/6`. -/
theorem claim_C2_counterexample :
    computeRegionStrength ⟨"z1", 1000, 3000, .d2, ⟨1/2, 1/2⟩⟩ 840 = 1/2 ∧
    (sampleZoomKeyframes [⟨"z1", 1000, 3000, .d2, ⟨1/2, 1/2⟩⟩] 840 840).map
      (fun kf => kf.cropWidth) = [1, 4/5] ∧
    ¬ ((4:ℚ)/5 = 1 + (1 / ZOOM_DEPTH_SCALES .d2 - 1) * (1/2)) := by
  refine ⟨by with_unfolding_all decide, by with_unfolding_all decide, ?_⟩
  with_unfolding_all decide

/-- C8: with every effect disabled (no trim, no zoom regions, crop
absent or the identity rectangle, background absent or zero padding,
no annotations) the planner emits exactly the single stream-copy
step. -/
theorem claim_C8 (config : ProcessingConfig)
    (ht : config.trim = none ∨ config.trim = some [])
    (hz : config.zoom = none ∨ ∃ z, config.zoom = some z ∧ z.regions = [])
    (hc : config.crop = none ∨ config.crop = some ⟨0, 0, 1, 1⟩)
    (hb : config.background = none ∨
      ∃ bg, config.background = some bg ∧ bg.padding.getD 0 = 0)
    (ha : config.annotations = none ∨ config.annotations = some []) :
    buildPipeline config = [⟨"Copy (no effects)",
      ["ffmpeg", "-y", "-i", config.inputPath, "-c", "copy", config.outputPath]⟩] := by
  have hT : needsTrim config = false := by
    rcases ht with h | h <;> simp [needsTrim, h]
  have hZ : needsZoom config = false := by
    rcases hz with h | ⟨z, h1, h2⟩
    · simp [needsZoom, h]
    · simp [needsZoom, h1, h2]
  have hC : needsCrop config = false := by
    rcases hc with h | h <;> simp [needsCrop, h]
  have hB : needsBackground config = false := by
    rcases hb with h | ⟨bg, h1, h2⟩
    · simp [needsBackground, h]
    · simp [needsBackground, h1, h2]
  have hA : needsAnnotations config = false := by
    rcases ha with h | h <;> simp [needsAnnotations, h]
  have hvf : vfPartsOf config = [] := by
    simp [vfPartsOf, hC, hZ, hA]
  simp [buildPipeline, hT, pipelineRest, hB, hvf]

/-- Witness for C8 at a config with every optional effect absent. -/
theorem claim_C8_witness :
    buildPipeline
        ⟨"in.mp4", "out.mp4", ⟨1920, 1080, 60000, 30⟩,
          none, none, none, none, none, none, none, none⟩ =
      [⟨"Copy (no effects)",
        ["ffmpeg", "-y", "-i", "in.mp4", "-c", "copy", "out.mp4"]⟩] :=
  claim_C8 _ (Or.inl rfl) (Or.inl rfl) (Or.inl rfl) (Or.inl rfl) (Or.inl rfl)

/-- A trim-only config whose single cut covers the whole clip. -/
def trimOnlyConfig : ProcessingConfig :=
  { inputPath := "in.mp4", outputPath := "out.mp4",
    video := ⟨1920, 1080, 60000, 30⟩, trim := some [⟨"t1", 0, 60000⟩] }

/-- C9: a cut region covering the whole clip leaves no kept segment;
an empty kept-segment list makes `generateTrimFilter` return the empty
string (no error), and `buildPipeline` emits no trim step — with every
other effect disabled the plan is the single stream-copy of the
untrimmed input. -/
theorem claim_C9 :
    (∀ (r : TrimRegion) (d : ℚ), r.startMs ≤ 0 → d ≤ r.endMs →
      computeKeptSegments [r] d = []) ∧
    (∀ (ts : List TrimRegion) (d : ℚ) (hasAudio : Bool),
      computeKeptSegments ts d = [] → generateTrimFilter ts d hasAudio = "") ∧
    (∀ (config : ProcessingConfig) (ts : List TrimRegion),
      config.trim = some ts → ts ≠ [] →
      computeKeptSegments ts config.video.durationMs = [] →
      needsZoom config = false → needsCrop config = false →
      needsBackground config = false → needsAnnotations config = false →
      buildPipeline config = [⟨"Copy (no effects)",
        ["ffmpeg", "-y", "-i", config.inputPath, "-c", "copy", config.outputPath]⟩]) := by
  refine ⟨fun r d h1 h2 => ?_, fun ts d hasAudio h => ?_, ?_⟩
  · have hstart : ¬((0:ℚ) < r.startMs / 1000) := by
      intro hlt
      linarith
    have hend : ¬(r.endMs / 1000 < d / 1000) := by
      intro hlt
      linarith
    simp [computeKeptSegments, sortByStart, List.mergeSort_singleton, keptStep,
      hstart, hend]
  · simp [generateTrimFilter, h]
  · intro config ts h1 h2 h3 hZ hC hB hA
    have hne : ts.isEmpty = false := by
      cases ts with
      | nil => exact absurd rfl h2
      | cons a l => rfl
    have hT : needsTrim config = true := by
      simp [needsTrim, h1, hne]
    have hgetD : config.trim.getD [] = ts := by
      rw [h1]
      rfl
    have hvf : vfPartsOf config = [] := by
      simp [vfPartsOf, hC, hZ, hA]
    simp [buildPipeline, hT, hgetD, h3, pipelineRest, hB, hvf]

/-- Witness for C9 at the whole-clip cut `{0, 60000}` over 60000 ms. -/
theorem claim_C9_witness :
    computeKeptSegments [(⟨"t1", 0, 60000⟩ : TrimRegion)] 60000 = [] ∧
    generateTrimFilter [(⟨"t1", 0, 60000⟩ : TrimRegion)] 60000 true = "" ∧
    buildPipeline trimOnlyConfig = [⟨"Copy (no effects)",
      ["ffmpeg", "-y", "-i", "in.mp4", "-c", "copy", "out.mp4"]⟩] :=
  ⟨claim_C9.1 ⟨"t1", 0, 60000⟩ 60000 (by norm_num) (by norm_num),
   claim_C9.2.1 [⟨"t1", 0, 60000⟩] 60000 true
     (claim_C9.1 ⟨"t1", 0, 60000⟩ 60000 (by norm_num) (by norm_num)),
   claim_C9.2.2 trimOnlyConfig [⟨"t1", 0, 60000⟩] rfl (by decide)
     (claim_C9.1 ⟨"t1", 0, 60000⟩ 60000 (by norm_num) (by norm_num))
     (by decide) (by decide) (by decide) (by decide)⟩

/-- Steps 2–3 only append to already-emitted steps, and the first
appended step (when one exists) reads the current input. -/
lemma pipelineRest_append (config : ProcessingConfig) (steps : List PipelineStep)
    (cur : String) (idx : Nat) (hsteps : steps ≠ []) :
    ∃ rest, pipelineRest config steps cur idx = steps ++ rest ∧
      ∀ s, rest.head? = some s → s.args.take 4 = ["ffmpeg", "-y", "-i", cur] := by
  by_cases hb : needsBackground config = true
  · by_cases hv : (vfPartsOf config).isEmpty
    · simp only [pipelineRest, hb, if_true, hv, Bool.not_true, Bool.false_eq_true,
        if_false]
      refine ⟨_, rfl, ?_⟩
      intro s hs
      simp only [List.head?_cons, Option.some_inj] at hs
      subst hs
      rfl
    · rw [Bool.not_eq_true] at hv
      simp only [pipelineRest, hb, if_true, hv, Bool.not_false, if_true,
        List.append_assoc]
      refine ⟨_, rfl, ?_⟩
      intro s hs
      simp only [List.cons_append, List.head?_cons, Option.some_inj] at hs
      subst hs
      rfl
  · rw [Bool.not_eq_true] at hb
    by_cases hv : (vfPartsOf config).isEmpty
    · have hne : steps.isEmpty = false := by
        cases steps with
        | nil => exact absurd rfl hsteps
        | cons a l => rfl
      refine ⟨[], ?_, fun s hs => by simp at hs⟩
      simp only [pipelineRest, hb, Bool.false_eq_true, if_false, hv, Bool.not_true,
        hne, List.append_nil]
    · rw [Bool.not_eq_true] at hv
      simp only [pipelineRest, hb, Bool.false_eq_true, if_false, hv, Bool.not_false,
        if_true]
      refine ⟨_, rfl, ?_⟩
      intro s hs
      simp only [List.head?_cons, Option.some_inj] at hs
      subst hs
      rfl

/-- C4 (amended): a non-empty trim list with exactly one kept segment
and all other effects disabled yields the single seek-based (`-ss`/
`-to`) step writing directly to the output; with more than one kept
segment the first step is the concat-based (`filter_complex`) trim
writing to the `_step0` intermediate, and that intermediate is the
input of the immediately following step when one exists (a later
background pass reads the per-frame intermediate instead — see the
counterexample). -/
theorem claim_C4 :
    (∀ (config : ProcessingConfig) (ts : List TrimRegion) (seg : Segment),
      config.trim = some ts → ts ≠ [] →
      computeKeptSegments ts config.video.durationMs = [seg] →
      needsZoom config = false → needsCrop config = false →
      needsBackground config = false → needsAnnotations config = false →
      buildPipeline config = [⟨"Trim video",
        ["ffmpeg", "-y", "-ss", toFixed3 seg.startSec, "-to", toFixed3 seg.endSec,
         "-i", config.inputPath, "-c:v", "libx264", "-preset", "fast", "-crf", "18",
         "-c:a", "aac", config.outputPath]⟩]) ∧
    (∀ (config : ProcessingConfig) (ts : List TrimRegion),
      config.trim = some ts → ts ≠ [] →
      1 < (computeKeptSegments ts config.video.durationMs).length →
      ∃ rest, buildPipeline config =
        ⟨"Trim video (remove cut sections)",
          ["ffmpeg", "-y", "-i", config.inputPath, "-filter_complex",
           generateTrimFilter ts config.video.durationMs, "-map", "[outv]",
           "-map", "[outa]", "-c:v", "libx264", "-preset", "fast", "-crf", "18",
           "-c:a", "aac", intermediateOutput config.outputPath 0]⟩ :: rest ∧
        ∀ s, rest.head? = some s →
          s.args.take 4 = ["ffmpeg", "-y", "-i", intermediateOutput config.outputPath 0]) := by
  constructor
  · intro config ts seg h1 h2 h3 hZ hC hB hA
    have hne : ts.isEmpty = false := by
      cases ts with
      | nil => exact absurd rfl h2
      | cons a l => rfl
    have hT : needsTrim config = true := by
      simp [needsTrim, h1, hne]
    have hgetD : config.trim.getD [] = ts := by
      rw [h1]
      rfl
    simp [buildPipeline, hT, hgetD, h3, hZ, hC, hB, hA]
  · intro config ts h1 h2 h3
    have hne : ts.isEmpty = false := by
      cases ts with
      | nil => exact absurd rfl h2
      | cons a l => rfl
    have hT : needsTrim config = true := by
      simp [needsTrim, h1, hne]
    have hgetD : config.trim.getD [] = ts := by
      rw [h1]
      rfl
    rcases hseg : computeKeptSegments ts config.video.durationMs with _ | ⟨a, _ | ⟨b, more⟩⟩
    · rw [hseg] at h3
      simp at h3
    · rw [hseg] at h3
      simp at h3
    · rcases pipelineRest_append config
        [⟨"Trim video (remove cut sections)",
          ["ffmpeg", "-y", "-i", config.inputPath, "-filter_complex",
           generateTrimFilter ts config.video.durationMs, "-map", "[outv]",
           "-map", "[outa]", "-c:v", "libx264", "-preset", "fast", "-crf", "18",
           "-c:a", "aac", intermediateOutput config.outputPath 0]⟩]
        (intermediateOutput config.outputPath 0) 1 (by simp) with ⟨rest, hr1, hr2⟩
      refine ⟨rest, ?_, hr2⟩
      rw [← List.singleton_append, ← hr1]
      simp only [buildPipeline, hT, if_true, hgetD, hseg]

/-- Witness for C4's fast path: the single cut `{0, 5000}` over
60000 ms leaves the single kept segment `[5, 60]` and no other effect
is enabled, so the plan is one seek-based trim step. -/
theorem claim_C4_witness :
    buildPipeline
        ⟨"in.mp4", "out.mp4", ⟨1920, 1080, 60000, 30⟩,
          none, none, some [⟨"t1", 0, 5000⟩], none, none, none, none, none⟩ =
      [⟨"Trim video",
        ["ffmpeg", "-y", "-ss", toFixed3 5, "-to", toFixed3 60,
         "-i", "in.mp4", "-c:v", "libx264", "-preset", "fast", "-crf", "18",
         "-c:a", "aac", "out.mp4"]⟩] :=
  claim_C4.1
    ⟨"in.mp4", "out.mp4", ⟨1920, 1080, 60000, 30⟩,
      none, none, some [⟨"t1", 0, 5000⟩], none, none, none, none, none⟩
    [⟨"t1", 0, 5000⟩] ⟨5, 60⟩ rfl (by decide) (by with_unfolding_all decide)
    (by decide) (by decide) (by decide) (by decide)

/-- The config refuting C4 as stated: a two-segment trim together with
a non-identity crop and a padded background. -/
def multiPassConfig : ProcessingConfig :=
  { inputPath := "in.mp4", outputPath := "out.mp4",
    video := ⟨1920, 1080, 60000, 30⟩,
    crop := some ⟨0, 0, 1/2, 1/2⟩,
    trim := some [⟨"t1", 5000, 10000⟩],
    background := some { type := .color, color := some "#000000", padding := some 10 } }

/-- Counterexample to C4 as stated: with a two-segment trim, a crop
and a background, the plan has three steps; the first is the concat
trim writing `out_step0.mp4`, but the third step reads `out_step1.mp4`
(the per-frame intermediate), so the trim intermediate is *not* the
input of every subsequent step. -/
theorem claim_C4_counterexample :
    1 < (computeKeptSegments [⟨"t1", 5000, 10000⟩] 60000).length ∧
    (buildPipeline multiPassConfig).map (fun s => s.description) =
      ["Trim video (remove cut sections)", "Apply zoom/crop/annotations",
       "Apply background/wallpaper"] ∧
    (buildPipeline multiPassConfig).map (fun s => s.args.take 4) =
      [["ffmpeg", "-y", "-i", "in.mp4"],
       ["ffmpeg", "-y", "-i", "out_step0.mp4"],
       ["ffmpeg", "-y", "-i", "out_step1.mp4"]] ∧
    intermediateOutput "out.mp4" 0 = "out_step0.mp4" ∧
    ("out_step1.mp4" : String) ≠ "out_step0.mp4" := by
  refine ⟨by with_unfolding_all decide, ?_, ?_, by with_unfolding_all decide, by decide⟩
  · with_unfolding_all decide
  · with_unfolding_all decide

/-- Steps 2–3 add a background-compositing step exactly when
`needsBackground` holds, provided no already-emitted step is one. -/
lemma pipelineRest_bg_iff (config : ProcessingConfig) (steps : List PipelineStep)
    (cur : String) (idx : Nat)
    (hsteps : ∀ s ∈ steps, s.description ≠ "Apply background/wallpaper") :
    ((∃ s ∈ pipelineRest config steps cur idx,
        s.description = "Apply background/wallpaper") ↔
      needsBackground config = true) := by
  by_cases hb : needsBackground config = true
  · refine iff_of_true ?_ hb
    by_cases hv : (vfPartsOf config).isEmpty
    · simp only [pipelineRest, hb, if_true, hv, Bool.not_true, Bool.false_eq_true,
        if_false]
      exact ⟨_, List.mem_append_right _ (List.mem_singleton_self _), rfl⟩
    · rw [Bool.not_eq_true] at hv
      simp only [pipelineRest, hb, if_true, hv, Bool.not_false, if_true]
      exact ⟨_, List.mem_append_right _ (List.mem_singleton_self _), rfl⟩
  · rw [Bool.not_eq_true] at hb
    rw [hb]
    simp only [Bool.false_eq_true, iff_false]
    rintro ⟨s, hmem, hdesc⟩
    by_cases hv : (vfPartsOf config).isEmpty
    · have hform : pipelineRest config steps cur idx =
          if steps.isEmpty then
            [⟨"Copy (no effects)",
              ["ffmpeg", "-y", "-i", cur, "-c", "copy", config.outputPath]⟩]
          else steps := by
        simp only [pipelineRest, hb, Bool.false_eq_true, if_false, hv, Bool.not_true]
      rw [hform] at hmem
      by_cases hse : steps.isEmpty
      · rw [if_pos hse] at hmem
        rcases List.mem_singleton.mp hmem with rfl
        simp at hdesc
      · rw [if_neg hse] at hmem
        exact hsteps s hmem hdesc
    · rw [Bool.not_eq_true] at hv
      have hform : pipelineRest config steps cur idx =
          steps ++ [⟨"Apply video effects (zoom/crop/annotations)",
            ["ffmpeg", "-y", "-i", cur, "-vf", String.intercalate "," (vfPartsOf config),
             "-c:v", "libx264", "-preset", "fast", "-crf", "18", "-c:a", "copy",
             config.outputPath]⟩] := by
        simp only [pipelineRest, hb, Bool.false_eq_true, if_false, hv, Bool.not_false,
          if_true]
      rw [hform] at hmem
      rcases List.mem_append.mp hmem with hmem | hmem
      · exact hsteps s hmem hdesc
      · rcases List.mem_singleton.mp hmem with rfl
        simp at hdesc

/-- `needsBackground` holds exactly when a background config is present
with strictly positive padding. -/
lemma needsBackground_iff (config : ProcessingConfig) :
    needsBackground config = true ↔
      ∃ bg, config.background = some bg ∧ 0 < bg.padding.getD 0 := by
  rcases h : config.background with _ | bg <;> simp [needsBackground, h]

set_option maxRecDepth 10000 in
/-- C10: `buildPipeline` emits a background-compositing step iff a
background config with strictly positive padding is present — zero or
absent padding contributes no step even with a positive border radius,
although `generateBackgroundFilter` called directly on such a config
does emit the rounded-corner composite. -/
theorem claim_C10 :
    (∀ config : ProcessingConfig,
      (∃ s ∈ buildPipeline config, s.description = "Apply background/wallpaper") ↔
      (∃ bg, config.background = some bg ∧ 0 < bg.padding.getD 0)) ∧
    generateBackgroundFilter ⟨.color, some "#1a1a2e", none, none, none, some 0, some 12⟩
        200 100 =
      "[0:v]scale=200:100:flags=lanczos[vid]; color=c=0x1a1a2e:s=200x100:d=1[bg]; " ++
        "[vid]format=yuva420p,geq=lum=\x27lum(X,Y)\x27:cb=\x27cb(X,Y)\x27:" ++
        "cr=\x27cr(X,Y)\x27:a=\x27if(gt(pow(min(X,W-X)-12,2)+pow(min(Y,H-Y)-12,2)," ++
        "pow(12,2))*lt(min(X,W-X),12)*lt(min(Y,H-Y),12),0,255)\x27[rounded]; " ++
        "[bg][rounded]overlay=0:0:format=auto" := by
  constructor
  · intro config
    rw [← needsBackground_iff]
    by_cases hT : needsTrim config = true
    · simp only [buildPipeline, hT, if_true]
      split
      · split
        · rename_i hOnly
          have hbf : needsBackground config = false := by
            simp only [Bool.and_eq_true] at hOnly
            obtain ⟨⟨⟨_, _⟩, h3⟩, _⟩ := hOnly
            simpa using h3
          rw [hbf]
          simp only [Bool.false_eq_true, iff_false]
          rintro ⟨s, hmem, hdesc⟩
          rcases List.mem_singleton.mp hmem with rfl
          simp at hdesc
        · exact pipelineRest_bg_iff config [] config.inputPath 0 (by simp)
      · exact pipelineRest_bg_iff config [] config.inputPath 0 (by simp)
      · exact pipelineRest_bg_iff config _ _ 1
          (by
            intro s hs
            rcases List.mem_singleton.mp hs with rfl
            simp)
    · rw [Bool.not_eq_true] at hT
      simp only [buildPipeline, hT, Bool.false_eq_true, if_false]
      exact pipelineRest_bg_iff config [] config.inputPath 0 (by simp)
  · with_unfolding_all rfl

/-- Witness for C7's monotonicity at a concrete region. -/
theorem claim_C7_witness :
    ((0:ℚ) ≤ 5000) ∧
    computeEffectiveDuration [⟨"c", 0, 5000⟩] 60000 ≤ computeEffectiveDuration [] 60000 :=
  ⟨by norm_num, claim_C7.2.2 [] ⟨"c", 0, 5000⟩ 60000 (by norm_num)⟩

end OpenScreen
